import Mathlib

/-!
Verification of the `agnkos/blogs` repository: a minimal blogging REST API
(Express route handlers over a document store) plus a small module of pure
aggregation helpers (`totalLikes`, `favoriteBlog`, `mostBlogs`).

The development shallowly embeds the JavaScript source:
* the aggregation helpers (`utils` list-helper module) become pure Lean
  functions over `List Blog`;
* the route handlers of `controllers/blogs.js` become state-passing functions
  over an explicit store (`List StoredBlog`, `List UserRec`), returning an
  outcome value that records the HTTP response sent, or the JavaScript
  exception that escaped the handler.
-/

namespace Blogs

/-! ## Aggregation helpers (list-helper module)

A post record as consumed by the aggregation helpers: the helpers read the
`title`, `author` and `likes` fields. `likes` is a non-negative integer. -/

structure Blog where
  title : String
  author : String
  url : String
  likes : Nat
deriving DecidableEq, Repr

/-- Result type of `totalLikes`' source: `blogs.reduce((acc, curr) => acc + curr.likes, 0)`. -/
def totalLikes (blogs : List Blog) : Nat :=
  blogs.foldl (fun acc curr => acc + curr.likes) 0

/-- Result of `favoriteBlog`: the JS function returns either the string
`'the blog list is empty'` or an object `{title, author, likes}`. -/
inductive FavResult where
  | emptyMsg (msg : String) : FavResult
  | fav (title : String) (author : String) (likes : Nat) : FavResult
deriving DecidableEq, Repr

/-- The reducer of `favoriteBlog`: `(acc, curr) => acc.likes > curr.likes ? acc : curr`. -/
def favReducer (acc curr : Blog) : Blog :=
  if acc.likes > curr.likes then acc else curr

/-- `favoriteBlog` from the source (identical in both helper files):
if the list is non-empty, `blogs.reduce(reducer)` (fold with the head as the
initial accumulator) and project `{title, author, likes}`; otherwise the
descriptive string. -/
def favoriteBlog : List Blog → FavResult
  | [] => .emptyMsg "the blog list is empty"
  | h :: t =>
    let blog := t.foldl favReducer h
    .fav blog.title blog.author blog.likes

/-- Spec-side definition for comparison (refinement check of claim C4's
tie-break): "the post with the strictly maximum like count, ties broken by
first occurrence in the input order". -/
def favoriteBlogSpecFirstTie (blogs : List Blog) : FavResult :=
  match blogs with
  | [] => .emptyMsg "the blog list is empty"
  | _ :: _ =>
    let m := (blogs.map Blog.likes).foldl max 0
    match blogs.find? (fun b => b.likes = m) with
    | some b => .fav b.title b.author b.likes
    | none => .emptyMsg "unreachable"

/-- Result of `mostBlogs`: the string sentinel, an `{author, blogs}` object,
or the TypeError thrown when `authorData` is `undefined` and indexed. -/
inductive MostResult where
  | emptyMsg (msg : String) : MostResult
  | authorCount (author : String) (blogs : Nat) : MostResult
  | undefinedIndexCrash : MostResult
deriving DecidableEq, Repr

/-- `_.countBy(blogs, 'author')`: a JS object mapping each author to its
count, with string keys in first-insertion order (modelled as an association
list). -/
def bumpCount : List (String × Nat) → String → List (String × Nat)
  | [], a => [(a, 1)]
  | (k, n) :: rest, a =>
    if k = a then (k, n + 1) :: rest else (k, n) :: bumpCount rest a

def countByAuthor (blogs : List Blog) : List (String × Nat) :=
  blogs.foldl (fun acc b => bumpCount acc b.author) []

/-- JS string relational comparison `<`: lexicographic on UTF-16 code units
(the strings involved are BMP, so code points coincide). -/
def jsStrLt : List Char → List Char → Bool
  | [], [] => false
  | [], _ :: _ => true
  | _ :: _, [] => false
  | a :: as, b :: bs =>
    if a.toNat < b.toNat then true
    else if b.toNat < a.toNat then false
    else jsStrLt as bs

/-- JS coercion of an entry array `[author, count]` to a primitive in a
relational comparison: `Array.prototype.toString`, i.e. `join(',')`. -/
def entryChars (e : String × Nat) : List Char :=
  e.1.data ++ ',' :: (Nat.repr e.2).data

/-- `_.maxBy(entries)` with the default identity iteratee: scan left to
right keeping the current element, replacing it only when the new entry is
strictly `>` (JS string comparison of the coerced arrays); `undefined` on an
empty array. -/
def maxByIdentity : List (String × Nat) → Option (String × Nat)
  | [] => none
  | e :: rest =>
    some (rest.foldl (fun acc x => if jsStrLt (entryChars acc) (entryChars x) then x else acc) e)

/-- `mostBlogs` from the source:
`let authorData = _.maxBy(_.entries(_.countBy(blogs, 'author')))` followed by
`blogs.length === 0 ? 'the blog list is empty' : {author: authorData[0], blogs: authorData[1]}`.
`undefinedIndexCrash` models indexing `undefined` (unreachable: `countByAuthor` is
non-empty whenever `blogs` is). -/
def mostBlogs (blogs : List Blog) : MostResult :=
  let authorData := maxByIdentity (countByAuthor blogs)
  if blogs.length = 0 then .emptyMsg "the blog list is empty"
  else
    match authorData with
    | some e => .authorCount e.1 e.2
    | none => .undefinedIndexCrash

/-! ## Router embedding (`controllers/blogs.js`)

A stored `Blog` document. Field values supplied in a request body may be
absent (JS `undefined`), so the document fields other than the
store-assigned `id` and the numeric `likes` (which mongoose defaults) are
`Option`s; `user` is the optional owning-user reference. -/

structure StoredBlog where
  id : String
  title : Option String
  author : Option String
  url : Option String
  likes : Nat
  user : Option String
deriving DecidableEq, Repr

/-- A stored `User` document: its identifier and its list of owned post
identifiers (`user.blogs`). -/
structure UserRec where
  id : String
  blogs : List String
deriving DecidableEq, Repr

/-- Errors raised by the persistence collaborator. -/
inductive DbErr where
  | castError : DbErr
  | validationError : DbErr
deriving DecidableEq, Repr

/-- Modelled from the spec: the Persistence collaborator of §6 is not under
`src/` (mongoose models). A lookup identifier is well-formed when it is a
24-character hexadecimal ObjectId string; otherwise the collaborator "may
fail with a `CastError` for malformed identifiers". -/
def wellFormedId (s : String) : Bool :=
  s.length = 24 && s.data.all (fun c => c.isDigit || ('a' ≤ c && c ≤ 'f'))

/-- Modelled from the spec: collaborator `findById(id)` — `CastError` on a
malformed identifier, otherwise the matching record or `null`. -/
def dbFindById (key : α → String) (coll : List α) (id : String) : Except DbErr (Option α) :=
  if wellFormedId id then .ok (coll.find? (fun x => key x = id)) else .error .castError

/-- Fields of a `PUT /api/blogs/:id` request body that the handler reads. -/
structure PutDoc where
  title : Option String
  author : Option String
  url : Option String
  likes : Option Nat
  id : Option String
deriving DecidableEq, Repr

/-- Mongoose strips `undefined` fields from an update patch: a field of the
stored record changes only when the patch supplies it. -/
def applyPatch (b : StoredBlog) (p : PutDoc) : StoredBlog :=
  { b with
    title := match p.title with | some s => some s | none => b.title
    author := match p.author with | some s => some s | none => b.author
    url := match p.url with | some s => some s | none => b.url
    likes := match p.likes with | some n => n | none => b.likes }

/-- Modelled from the spec: collaborator `findByIdAndUpdate(id, patch)` —
`CastError` on a malformed identifier; on a well-formed identifier it
succeeds, updating the matching record if one exists (a well-formed
identifier matching no record is not an error). -/
def findByIdAndUpdate (store : List StoredBlog) (id : String) (p : PutDoc) :
    Except DbErr (List StoredBlog) :=
  if wellFormedId id then
    .ok (store.map fun b => if b.id = id then applyPatch b p else b)
  else .error .castError

/-- Outcome of the PUT handler: the 200 response with its JSON body, or an
error forwarded to the error-handling middleware via `next(error)`. -/
inductive PutOutcome where
  | ok200 (body : PutDoc)
  | nextErr (e : DbErr)
deriving DecidableEq, Repr

/-- `blogsRouter.put('/:id', ...)`: build `blog` from the request body
(including `id: body.id`), `try { await Blog.findByIdAndUpdate(params.id,
blog, {new: true}); response.status(200).json(blog) } catch (e) { next(e) }`. -/
def putHandler (store : List StoredBlog) (paramsId : String) (body : PutDoc) :
    PutOutcome × List StoredBlog :=
  let blog : PutDoc :=
    { title := body.title, author := body.author, url := body.url,
      likes := body.likes, id := body.id }
  match findByIdAndUpdate store paramsId blog with
  | .ok newStore => (.ok200 blog, newStore)
  | .error e => (.nextErr e, store)

/-- Result of `jwt.verify(request.token, SECRET)` followed by the
`decodedToken.id` check: the token throws, decodes without an `id`, or
yields the caller's user identifier. -/
inductive AuthCheck where
  | jwtThrow : AuthCheck
  | noId : AuthCheck
  | verified (id : String) : AuthCheck
deriving DecidableEq, Repr

/-- Fields of a `POST /api/blogs` request body that the handler reads. -/
structure CreateBody where
  title : Option String
  author : Option String
  url : Option String
  likes : Option Nat
deriving DecidableEq, Repr

/-- JS truthiness of a possibly-absent string: `undefined` and `''` are falsy. -/
def truthyStr : Option String → Bool
  | none => false
  | some s => !(s = "")

/-- `body.likes || 0`: `undefined` and `0` are falsy, so both give `0`. -/
def jsOrZero : Option Nat → Nat
  | none => 0
  | some n => if n = 0 then 0 else n

/-- Outcome of the POST handler. -/
inductive PostOutcome where
  | created201 (body : StoredBlog)
  | status400
  | tokenInvalid401 (msg : String)
  | uncaughtJwt
  | uncaughtCast
  | typeErrorNullUser
deriving DecidableEq, Repr

/-- Append `savedBlog.id` to the owner's `blogs` list (`user.blogs =
user.blogs.concat(savedBlog.id); await user.save()`). -/
def appendUserBlog (users : List UserRec) (uid : String) (blogId : String) : List UserRec :=
  users.map fun u => if u.id = uid then { u with blogs := u.blogs ++ [blogId] } else u

/-- `blogsRouter.post('/', ...)`: verify the token, look up the caller,
build the new document (`likes: body.likes || 0`, `user: user.id` — a
TypeError if the caller record is `null`), then
`if (body.title && body.url) { save; 201; update user } else 400`.
`newId` is the identifier the store assigns on save. -/
def postHandler (users : List UserRec) (store : List StoredBlog) (auth : AuthCheck)
    (body : CreateBody) (newId : String) :
    PostOutcome × List StoredBlog × List UserRec :=
  match auth with
  | .jwtThrow => (.uncaughtJwt, store, users)
  | .noId => (.tokenInvalid401 "token invalid", store, users)
  | .verified cid =>
    match dbFindById UserRec.id users cid with
    | .error _ => (.uncaughtCast, store, users)
    | .ok none => (.typeErrorNullUser, store, users)
    | .ok (some u) =>
      let blog : StoredBlog :=
        { id := newId, title := body.title, author := body.author, url := body.url,
          likes := jsOrZero body.likes, user := some u.id }
      if truthyStr body.title && truthyStr body.url then
        (.created201 blog, store ++ [blog], appendUserBlog users u.id newId)
      else (.status400, store, users)

/-- Outcome of the DELETE handler. The handler has no `try/catch` and never
calls `next`, so persistence and type errors escape it un-handled; the
`uncaught`/`typeError` constructors record exactly which expression threw. -/
inductive DeleteOutcome where
  | status204
  | tokenInvalid401 (msg : String)
  | notAuthorized401 (msg : String)
  | uncaughtJwt
  | uncaughtCast
  | typeErrorNullBlog
  | typeErrorUndefUser
  | typeErrorNullUser
deriving DecidableEq, Repr

/-- Whether a DELETE outcome is an HTTP response actually sent by the
handler (as opposed to an exception escaping it). -/
def respondsHttp : DeleteOutcome → Bool
  | .status204 => true
  | .tokenInvalid401 _ => true
  | .notAuthorized401 _ => true
  | _ => false

/-- `blogsRouter.delete('/:id', ...)`: verify the token, `User.findById`,
`Blog.findById(params.id)` (CastError escapes: no `try/catch`), then
`if (blog.user.toString() === user._id.toString())` — evaluated left to
right, so a `null` blog or an absent `blog.user` throws a TypeError before
a `null` user does — remove and 204, else 401 `{error: "user not authorized"}`. -/
def deleteHandler (users : List UserRec) (store : List StoredBlog) (auth : AuthCheck)
    (targetId : String) : DeleteOutcome × List StoredBlog :=
  match auth with
  | .jwtThrow => (.uncaughtJwt, store)
  | .noId => (.tokenInvalid401 "token invalid", store)
  | .verified cid =>
    match dbFindById UserRec.id users cid with
    | .error _ => (.uncaughtCast, store)
    | .ok userOpt =>
      match dbFindById StoredBlog.id store targetId with
      | .error _ => (.uncaughtCast, store)
      | .ok none => (.typeErrorNullBlog, store)
      | .ok (some blog) =>
        match blog.user with
        | none => (.typeErrorUndefUser, store)
        | some owner =>
          match userOpt with
          | none => (.typeErrorNullUser, store)
          | some u =>
            if owner = u.id then
              (.status204, store.filter fun b => !(b.id = targetId))
            else (.notAuthorized401 "user not authorized", store)

/-! ## Concrete sample data used by counterexamples and witnesses -/

/-- Three posts: author "alice" strictly has more posts (2) than "bob" (1). -/
def postsAliceBob : List Blog :=
  [⟨"t1", "alice", "u1", 0⟩, ⟨"t2", "alice", "u2", 0⟩, ⟨"t3", "bob", "u3", 0⟩]

/-- Two posts tied at 5 likes; the first is by "auA", the second by "auB". -/
def tieFst : Blog := ⟨"a", "auA", "ua", 5⟩

def tieSnd : Blog := ⟨"b", "auB", "ub", 5⟩

/-- A well-formed 24-hex-character identifier. -/
def wfIdA : String := "aaaaaaaaaaaaaaaaaaaaaaaa"

/-- A second well-formed identifier, distinct from `wfIdA`. -/
def wfIdB : String := "bbbbbbbbbbbbbbbbbbbbbbbb"

/-- A third well-formed identifier, used as a user id. -/
def wfIdC : String := "cccccccccccccccccccccccc"

/-- A fourth well-formed identifier, used as a second user id. -/
def wfIdD : String := "dddddddddddddddddddddddd"

/-- A stored post with identifier `wfIdA` and no owning user. -/
def storedNoUser : StoredBlog :=
  { id := wfIdA, title := some "React patterns", author := some "Michael Chan",
    url := some "https://reactpatterns.com/", likes := 7, user := none }

/-- A stored post with identifier `wfIdA` owned by user `wfIdD`. -/
def storedOwnedD : StoredBlog :=
  { id := wfIdA, title := some "React patterns", author := some "Michael Chan",
    url := some "https://reactpatterns.com/", likes := 7, user := some wfIdD }

/-- A registered user with identifier `wfIdC` and no owned posts. -/
def userC : UserRec := { id := wfIdC, blogs := [] }

/-- A PUT body whose `id` field is `wfIdB`. -/
def putBodySample : PutDoc :=
  { title := some "new title", author := some "N", url := some "nu",
    likes := some 9, id := some wfIdB }

/-- The store a successful `putHandler` call on `[storedNoUser]` at `wfIdA`
with `putBodySample` produces. -/
def putStoreAfter : List StoredBlog :=
  [{ id := wfIdA, title := some "new title", author := some "N", url := some "nu",
     likes := 9, user := none }]

/-- A POST body with no `title` field. -/
def createNoTitle : CreateBody :=
  { title := none, author := some "Author", url := some "blogwithonotitle.com",
    likes := some 6 }

end Blogs

namespace Blogs

/-! ## Helper lemmas -/

theorem foldl_add_likes (l : List Blog) :
    ∀ n : Nat, l.foldl (fun acc curr => acc + curr.likes) n = n + (l.map Blog.likes).sum := by
  induction l with
  | nil => intro n; simp
  | cons h t ih => intro n; simp [List.foldl_cons, ih, Nat.add_assoc]

theorem totalLikes_eq_map_sum (l : List Blog) : totalLikes l = (l.map Blog.likes).sum := by
  simpa using foldl_add_likes l 0

/-! ## Claims about the aggregation helpers -/

/-- Claim C7: `totalLikes` of the empty list is 0, and for every list of
posts `totalLikes` equals the arithmetic sum of the `likes` field over all
posts. -/
theorem totalLikes_is_sum :
    totalLikes ([] : List Blog) = 0 ∧
    ∀ l : List Blog, totalLikes l = (l.map Blog.likes).sum :=
  ⟨rfl, totalLikes_eq_map_sum⟩

/-- Claim C8: `totalLikes` is invariant under permutation of the input list. -/
theorem totalLikes_perm_invariant (l₁ l₂ : List Blog) (h : l₁.Perm l₂) :
    totalLikes l₁ = totalLikes l₂ := by
  rw [totalLikes_eq_map_sum, totalLikes_eq_map_sum]
  exact (h.map Blog.likes).sum_eq

/-- Witness for claim C8 at a concrete permutation. -/
theorem totalLikes_perm_invariant_witness :
    ([tieFst, tieSnd] : List Blog).Perm [tieSnd, tieFst] ∧
    totalLikes [tieFst, tieSnd] = totalLikes [tieSnd, tieFst] :=
  ⟨by decide, totalLikes_perm_invariant [tieFst, tieSnd] [tieSnd, tieFst] (by decide)⟩

/-- Claim C1 (code bug): on `postsAliceBob`, where "alice" strictly has more
posts (2) than "bob" (1), `mostBlogs` returns `{author: "bob", blogs: 1}` —
`_.maxBy` is called without an iteratee, so the `[author, count]` entries are
compared as the joined strings `"alice,2"` and `"bob,1"`, and the
lexicographically largest wins instead of the author with the most posts. -/
theorem mostBlogs_majority_violated :
    countByAuthor postsAliceBob = [("alice", 2), ("bob", 1)] ∧
    mostBlogs postsAliceBob = .authorCount "bob" 1 ∧
    mostBlogs postsAliceBob ≠ .authorCount "alice" 2 := by
  refine ⟨by decide, by decide, by decide⟩

theorem favReducer_left_le (a c : Blog) : a.likes ≤ (favReducer a c).likes := by
  unfold favReducer
  split
  case isTrue => exact Nat.le_refl _
  case isFalse h => exact Nat.le_of_not_lt h

theorem favReducer_right_le (a c : Blog) : c.likes ≤ (favReducer a c).likes := by
  unfold favReducer
  split
  case isTrue h => exact Nat.le_of_lt h
  case isFalse => exact Nat.le_refl _

theorem foldl_favReducer_le (t : List Blog) :
    ∀ a : Blog, ∀ c ∈ a :: t, c.likes ≤ (t.foldl favReducer a).likes := by
  induction t with
  | nil =>
    intro a c hc
    rcases List.mem_singleton.mp hc with rfl
    exact Nat.le_refl _
  | cons x t ih =>
    intro a c hc
    rw [List.foldl_cons]
    rcases List.mem_cons.mp hc with rfl | hc2
    · exact Nat.le_trans (favReducer_left_le c x)
        (ih (favReducer c x) _ (List.mem_cons_self _ _))
    · rcases List.mem_cons.mp hc2 with rfl | hc3
      · exact Nat.le_trans (favReducer_right_le a c)
          (ih (favReducer a c) _ (List.mem_cons_self _ _))
      · exact ih (favReducer a x) c (List.mem_cons_of_mem _ hc3)

theorem foldl_favReducer_split (t : List Blog) :
    ∀ a : Blog, ∃ l₁ l₂, a :: t = l₁ ++ (t.foldl favReducer a) :: l₂ ∧
      ∀ c ∈ l₂, c.likes < (t.foldl favReducer a).likes := by
  induction t with
  | nil =>
    intro a
    exact ⟨[], [], rfl, by intro c hc; cases hc⟩
  | cons x t ih =>
    intro a
    by_cases hax : a.likes > x.likes
    · have hfa : favReducer a x = a := by simp [favReducer, hax]
      rw [List.foldl_cons, hfa]
      obtain ⟨l₁, l₂, hsplit, hlt⟩ := ih a
      cases l₁ with
      | nil =>
        simp only [List.nil_append, List.cons.injEq] at hsplit
        obtain ⟨hra, ht⟩ := hsplit
        refine ⟨[], x :: t, ?_, ?_⟩
        · rw [List.nil_append, ← hra]
        · intro c hc
          rw [← hra]
          rcases List.mem_cons.mp hc with rfl | hc2
          · exact hax
          · have hcl : c ∈ l₂ := ht ▸ hc2
            have := hlt c hcl
            rwa [← hra] at this
      | cons y l₁ =>
        simp only [List.cons_append, List.cons.injEq] at hsplit
        obtain ⟨hya, ht⟩ := hsplit
        refine ⟨a :: x :: l₁, l₂, ?_, hlt⟩
        rw [List.cons_append, List.cons_append]
        exact congrArg (List.cons a) (congrArg (List.cons x) ht)
    · have hfa : favReducer a x = x := by simp [favReducer, hax]
      rw [List.foldl_cons, hfa]
      obtain ⟨l₁, l₂, hsplit, hlt⟩ := ih x
      refine ⟨a :: l₁, l₂, ?_, hlt⟩
      rw [List.cons_append, ← hsplit]

/-- Counterexample to claim C4 as stated: on two posts tied at the maximum
like count, the spec-side first-occurrence rule picks the first post, but
`favoriteBlog` (whose reducer keeps the accumulator only when strictly
greater) returns the second. -/
theorem favoriteBlog_first_tie_refuted :
    favoriteBlogSpecFirstTie [tieFst, tieSnd] = .fav "a" "auA" 5 ∧
    favoriteBlog [tieFst, tieSnd] = .fav "b" "auB" 5 ∧
    favoriteBlog [tieFst, tieSnd] ≠ favoriteBlogSpecFirstTie [tieFst, tieSnd] := by
  refine ⟨by decide, by decide, by decide⟩

/-- Claim C4 (amended): for the empty list `favoriteBlog` returns the
descriptive sentinel rather than raising; for every non-empty list it
returns the `{title, author, likes}` projection of a post of the list whose
like count is maximal, with ties broken by the LAST occurrence in the input
order (every post after the returned one has strictly fewer likes). -/
theorem favoriteBlog_max_last_tie :
    favoriteBlog [] = .emptyMsg "the blog list is empty" ∧
    ∀ l : List Blog, l ≠ [] →
      ∃ b : Blog, favoriteBlog l = .fav b.title b.author b.likes ∧
        b ∈ l ∧ (∀ c ∈ l, c.likes ≤ b.likes) ∧
        ∃ l₁ l₂, l = l₁ ++ b :: l₂ ∧ ∀ c ∈ l₂, c.likes < b.likes := by
  refine ⟨rfl, ?_⟩
  intro l hl
  match l with
  | [] => exact absurd rfl hl
  | h :: t =>
    refine ⟨t.foldl favReducer h, rfl, ?_, foldl_favReducer_le t h, ?_⟩
    · obtain ⟨l₁, l₂, hsplit, _⟩ := foldl_favReducer_split t h
      rw [hsplit]
      exact List.mem_append_right l₁ (List.mem_cons_self _ _)
    · exact foldl_favReducer_split t h

/-- Witness for claim C4's amended theorem at a concrete non-empty list. -/
theorem favoriteBlog_max_last_tie_witness :
    ∃ b : Blog, favoriteBlog [tieFst, tieSnd] = .fav b.title b.author b.likes ∧
      b ∈ [tieFst, tieSnd] ∧ (∀ c ∈ [tieFst, tieSnd], c.likes ≤ b.likes) ∧
      ∃ l₁ l₂, [tieFst, tieSnd] = l₁ ++ b :: l₂ ∧ ∀ c ∈ l₂, c.likes < b.likes :=
  favoriteBlog_max_last_tie.2 [tieFst, tieSnd] (by decide)

/-! ## Claims about the router -/

/-- Counterexample to claim C2 as stated: a well-formed identifier that
matches no stored post does not make the PUT handler propagate an error —
`findByIdAndUpdate` succeeds (matching nothing), and the handler responds
200 with the body-built object. -/
theorem put_unknown_id_responds_200 :
    storedNoUser.id ≠ wfIdB ∧
    (putHandler [storedNoUser] wfIdB putBodySample).1 = .ok200 putBodySample ∧
    (putHandler [storedNoUser] wfIdB putBodySample).1 ≠ .nextErr .castError ∧
    (putHandler [storedNoUser] wfIdB putBodySample).1 ≠ .nextErr .validationError := by
  refine ⟨by decide, by decide, by decide, by decide⟩

/-- Claim C2 (amended): the PUT handler propagates an error to the error
handler (via `next`) exactly when the target identifier is malformed — a
`CastError`, leaving the store unchanged; on any well-formed identifier,
even one matching no stored post, it responds 200 with the body-built
representation. -/
theorem put_propagates_only_cast_errors :
    ∀ (store : List StoredBlog) (paramsId : String) (body : PutDoc),
      (wellFormedId paramsId = false →
        putHandler store paramsId body = (.nextErr .castError, store)) ∧
      (wellFormedId paramsId = true →
        (putHandler store paramsId body).1 = .ok200
          { title := body.title, author := body.author, url := body.url,
            likes := body.likes, id := body.id }) := by
  intro store paramsId body
  constructor
  · intro hmal
    simp [putHandler, findByIdAndUpdate, hmal]
  · intro hwf
    simp [putHandler, findByIdAndUpdate, hwf]

/-- Witness for claim C2's amended theorem: the malformed identifier `"11"`
propagates a `CastError`; the well-formed unknown identifier `wfIdA` gets a
200 echo of the body. -/
theorem put_propagates_only_cast_errors_witness :
    putHandler [] "11" putBodySample = (.nextErr .castError, []) ∧
    (putHandler [] wfIdA putBodySample).1 = .ok200
      { title := putBodySample.title, author := putBodySample.author,
        url := putBodySample.url, likes := putBodySample.likes,
        id := putBodySample.id } :=
  ⟨(put_propagates_only_cast_errors [] "11" putBodySample).1 (by decide),
   (put_propagates_only_cast_errors [] wfIdA putBodySample).2 (by decide)⟩

/-- Claim C10: whenever the PUT handler responds 200, the response body is
built entirely from the request body's `title`, `author`, `url`, `likes`
and `id` fields — in particular its `id` is `body.id`, not the path
parameter — so it is independent of what the store holds. -/
theorem put_response_from_body (store : List StoredBlog) (paramsId : String)
    (body : PutDoc) (r : PutDoc) (s : List StoredBlog)
    (h : putHandler store paramsId body = (.ok200 r, s)) :
    r = { title := body.title, author := body.author, url := body.url,
          likes := body.likes, id := body.id } ∧ r.id = body.id := by
  simp only [putHandler] at h
  split at h
  · simp only [Prod.mk.injEq, PutOutcome.ok200.injEq] at h
    refine ⟨h.1.symm, ?_⟩
    rw [← h.1]
  · simp at h

/-- Witness for claim C10: updating the stored record at `wfIdA` with a
body whose `id` is `wfIdB`; the 200 body echoes the request body, its `id`
being `wfIdB`, regardless of the stored record. -/
theorem put_response_from_body_witness :
    putBodySample = { title := putBodySample.title, author := putBodySample.author,
                      url := putBodySample.url, likes := putBodySample.likes,
                      id := putBodySample.id } ∧
    putBodySample.id = putBodySample.id :=
  put_response_from_body [storedNoUser] wfIdA putBodySample putBodySample
    putStoreAfter (by decide)

/-- Claim C5: an authenticated create request (token verified, caller
found) whose body lacks a non-empty title or a non-empty url gets HTTP 400
and persists nothing: the post store and the user store are returned
unchanged. -/
theorem post_missing_field_400 (users : List UserRec) (store : List StoredBlog)
    (cid newId : String) (u : UserRec) (body : CreateBody)
    (hu : dbFindById UserRec.id users cid = .ok (some u))
    (hv : (truthyStr body.title && truthyStr body.url) = false) :
    postHandler users store (.verified cid) body newId = (.status400, store, users) := by
  simp only [postHandler, hu]
  simp [hv]

/-- Witness for claim C5: creating a post with no `title` field. -/
theorem post_missing_field_400_witness :
    postHandler [userC] [storedNoUser] (.verified wfIdC) createNoTitle wfIdB
      = (.status400, [storedNoUser], [userC]) :=
  post_missing_field_400 [userC] [storedNoUser] wfIdC wfIdB userC createNoTitle
    (by rfl) (by decide)

/-- Claim C6: an authenticated delete (token verified, caller found) whose
target post exists and is owned by a different user responds 401 with body
`{error: "user not authorized"}`, and the store is returned unchanged with
the target post still a member. -/
theorem delete_foreign_owner_401 (users : List UserRec) (store : List StoredBlog)
    (cid targetId owner : String) (u : UserRec) (b : StoredBlog)
    (hu : dbFindById UserRec.id users cid = .ok (some u))
    (hb : dbFindById StoredBlog.id store targetId = .ok (some b))
    (ho : b.user = some owner)
    (hne : owner ≠ u.id) :
    deleteHandler users store (.verified cid) targetId
      = (.notAuthorized401 "user not authorized", store) ∧ b ∈ store := by
  constructor
  · simp only [deleteHandler, hu, hb, ho]
    simp [hne]
  · unfold dbFindById at hb
    split at hb
    · injection hb with hb
      exact List.mem_of_find?_eq_some hb
    · exact Except.noConfusion hb

/-- Witness for claim C6: caller `wfIdC` deleting the post owned by `wfIdD`. -/
theorem delete_foreign_owner_401_witness :
    deleteHandler [userC] [storedOwnedD] (.verified wfIdC) wfIdA
      = (.notAuthorized401 "user not authorized", [storedOwnedD]) ∧
    storedOwnedD ∈ [storedOwnedD] :=
  delete_foreign_owner_401 [userC] [storedOwnedD] wfIdC wfIdA wfIdD userC
    storedOwnedD (by rfl) (by rfl) (by rfl) (by decide)

/-- Claim C9: an authenticated delete (token verified, caller found) whose
target post exists but has no owning-user reference makes the handler
evaluate `blog.user.toString()` on an absent value — a TypeError escapes,
and no HTTP response (204, 401 or 400) is sent. -/
theorem delete_absent_owner_type_error (users : List UserRec) (store : List StoredBlog)
    (cid targetId : String) (u : UserRec) (b : StoredBlog)
    (hu : dbFindById UserRec.id users cid = .ok (some u))
    (hb : dbFindById StoredBlog.id store targetId = .ok (some b))
    (hn : b.user = none) :
    deleteHandler users store (.verified cid) targetId = (.typeErrorUndefUser, store) ∧
    respondsHttp (deleteHandler users store (.verified cid) targetId).1 = false := by
  have h1 : deleteHandler users store (.verified cid) targetId
      = (.typeErrorUndefUser, store) := by
    simp only [deleteHandler, hu, hb, hn]
  exact ⟨h1, by rw [h1]; rfl⟩

/-- Witness for claim C9: deleting `storedNoUser`, a stored post with no
owning-user reference. -/
theorem delete_absent_owner_type_error_witness :
    deleteHandler [userC] [storedNoUser] (.verified wfIdC) wfIdA
      = (.typeErrorUndefUser, [storedNoUser]) ∧
    respondsHttp (deleteHandler [userC] [storedNoUser] (.verified wfIdC) wfIdA).1
      = false :=
  delete_absent_owner_type_error [userC] [storedNoUser] wfIdC wfIdA userC
    storedNoUser (by rfl) (by rfl) (by rfl)

/-- Claim C3 (code bug): the delete handler has no `try/catch` and never
calls `next`, so an authenticated delete with a malformed identifier lets
the `CastError` escape, and one with a well-formed unknown identifier
dereferences `null` — in neither case is any HTTP response (in particular
the 400 the repository's own test `deleting a blog with invalid id`
expects) produced. -/
theorem delete_bad_id_never_400 :
    deleteHandler [userC] [storedOwnedD] (.verified wfIdC) "11"
      = (.uncaughtCast, [storedOwnedD]) ∧
    deleteHandler [userC] [storedOwnedD] (.verified wfIdC) wfIdB
      = (.typeErrorNullBlog, [storedOwnedD]) ∧
    respondsHttp .uncaughtCast = false ∧
    respondsHttp .typeErrorNullBlog = false := by
  refine ⟨by decide, by decide, rfl, rfl⟩

end Blogs
